import Mathlib

/-!
Shallow Lean embedding of the NeuraLens Behavioral Baseline & Risk Scoring
core: the data model (Models/BehavioralFeatures.cs and the models file
holding RiskAssessment / ClassroomBaseline / StudentRiskCard), the
RiskScoringEngine (Services/RiskScoringEngine.cs) and the
BehavioralAnalyticsService (baseline calculation, risk-card aggregation and
its private risk-assessment routine).

Modelling conventions: C# double is embedded as ℚ, C# int as ℤ (counts that
are produced by Count() as ℕ), DateTime as ℤ.  DateTime.UtcNow is passed in
explicitly as a parameter named now.  External store reads are passed in as
explicit lists.  C# strings are Lean strings; the case-sensitive
String.Contains check is embedded as an executable substring search over the
underlying character lists.
-/

namespace NeuraLens

/-- Models/BehavioralFeatures.cs: MovementIntensity. -/
structure MovementIntensity where
  movementIntensityScore : ℚ
  threshold : ℚ
  status : String
  eventCount : ℤ
  timeWindow : String
deriving Repr, DecidableEq

/-- C# property initializers of MovementIntensity. -/
instance : Inhabited MovementIntensity :=
  ⟨{ movementIntensityScore := 0, threshold := 7/10, status := "normal",
     eventCount := 0, timeWindow := "120s" }⟩

/-- Models/BehavioralFeatures.cs: AttentionDuration. -/
structure AttentionDuration where
  attentionRatio : ℚ
  threshold : ℚ
  status : String
  longestFocusDuration : String
  averageFocusDuration : String
  timeWindow : String
deriving Repr, DecidableEq

/-- C# property initializers of AttentionDuration. -/
instance : Inhabited AttentionDuration :=
  ⟨{ attentionRatio := 0, threshold := 3/5, status := "normal",
     longestFocusDuration := "0s", averageFocusDuration := "0s",
     timeWindow := "120s" }⟩

/-- Models/BehavioralFeatures.cs: BehavioralFeatures. -/
structure BehavioralFeatures where
  studentId : String
  movementIntensity : MovementIntensity
  attentionDuration : AttentionDuration
  timestamp : ℤ
  sessionId : String
deriving Repr, DecidableEq

/-- C# property initializers of BehavioralFeatures. -/
instance : Inhabited BehavioralFeatures :=
  ⟨{ studentId := "", movementIntensity := default, attentionDuration := default,
     timestamp := 0, sessionId := "" }⟩

/-- RiskAssessment model record. -/
structure RiskAssessment where
  studentId : String
  riskLevel : String
  riskScore : ℚ
  riskCategory : String
  riskFactors : List String
  recommendation : String
  assessedAt : ℤ
  sessionId : String
deriving Repr, DecidableEq

/-- C# property initializers of RiskAssessment. -/
instance : Inhabited RiskAssessment :=
  ⟨{ studentId := "", riskLevel := "LOW", riskScore := 0, riskCategory := "",
     riskFactors := [], recommendation := "", assessedAt := 0, sessionId := "" }⟩

/-- ClassroomBaseline model record. -/
structure ClassroomBaseline where
  classroomId : String
  averageMovementIntensity : ℚ
  averageAttentionRatio : ℚ
  studentCount : ℕ
  calculatedAt : ℤ
  timeWindow : String
deriving Repr, DecidableEq

/-- C# property initializers of ClassroomBaseline. -/
instance : Inhabited ClassroomBaseline :=
  ⟨{ classroomId := "", averageMovementIntensity := 0, averageAttentionRatio := 0,
     studentCount := 0, calculatedAt := 0, timeWindow := "120s" }⟩

/-- StudentRiskCard model record. -/
structure StudentRiskCard where
  studentId : String
  anonymizedId : String
  currentRisk : RiskAssessment
  recentFeatures : List BehavioralFeatures
  classroomBaseline : ClassroomBaseline
  lastUpdated : ℤ
deriving Repr, DecidableEq

/-! ### String helpers used by the embedding

C# interpolated factor strings (with F2-formatted numbers spliced in) and
the case-sensitive Contains check of DetermineRiskCategory are embedded
executably. -/

/-- The decimal digit character for `n < 10` (C# digit rendering). -/
def digitChar (n : ℕ) : Char := Char.ofNat (48 + n)

/-- Decimal digit characters of a natural number, fuel-structured so that it
reduces by evaluation (fuel `n+1` always suffices). -/
def natDigitsAux : ℕ → ℕ → List Char
  | 0, _ => []
  | fuel+1, n =>
    if n < 10 then [digitChar n]
    else natDigitsAux fuel (n / 10) ++ [digitChar (n % 10)]

/-- Decimal rendering of a natural number. -/
def natDigits (n : ℕ) : List Char := natDigitsAux (n+1) n

/-- C# `int.ToString()`: optional minus sign then decimal digits. -/
def intChars (i : ℤ) : List Char :=
  if i < 0 then '-' :: natDigits i.natAbs else natDigits i.natAbs

/-- C# `{x:F2}` fixed-point formatting with two decimals, embedded over ℚ:
round to hundredths, then render `intpart.d₁d₂` with an optional sign. -/
def fmtF2 (q : ℚ) : List Char :=
  let n : ℤ := round (q * 100)
  let body := natDigits (n.natAbs / 100) ++
    ('.' :: [digitChar (n.natAbs % 100 / 10), digitChar (n.natAbs % 100 % 10)])
  if n < 0 then '-' :: body else body

/-- Substring occurrence test over character lists: C# `string.Contains`
(case-sensitive ordinal search, trying every start position). -/
def listContains : List Char → List Char → Bool
  | [], pat => pat.isPrefixOf []
  | a :: t, pat => pat.isPrefixOf (a :: t) || listContains t pat

/-- C# `string.Contains` on the embedded strings. -/
def strContains (s pat : String) : Bool := listContains s.data pat.data

/-! ### RiskScoringEngine (Services/RiskScoringEngine.cs) -/

/-- RiskScoringEngine.CalculateRiskScore: additive deviation scoring.
A positive movement deviation contributes `min (dev*100) 50`, a positive
attention deviation contributes `min (dev*100) 50`, then +10 for
`eventCount > 20`, +15 for attention status below_threshold, and the total
is capped at 100. -/
def calculateRiskScore (movement : MovementIntensity) (attention : AttentionDuration)
    (baseline : ClassroomBaseline) : ℚ :=
  let score : ℚ := 0
  let movementDeviation := movement.movementIntensityScore - baseline.averageMovementIntensity
  let score := if movementDeviation > 0 then score + min (movementDeviation * 100) 50 else score
  let attentionDeviation := baseline.averageAttentionRatio - attention.attentionRatio
  let score := if attentionDeviation > 0 then score + min (attentionDeviation * 100) 50 else score
  let score := if movement.eventCount > 20 then score + 10 else score
  let score := if attention.status = "below_threshold" then score + 15 else score
  min score 100

/-- RiskScoringEngine.DetermineRiskLevel: 70/40 cutoffs. -/
def determineRiskLevel (score : ℚ) : String :=
  if score ≥ 70 then "HIGH" else if score ≥ 40 then "MEDIUM" else "LOW"

/-- RiskScoringEngine.IdentifyRiskFactors: qualitative factor strings for the
secondary thresholds, plus a composite factor once two factors are present. -/
def identifyRiskFactors (features : BehavioralFeatures) (baseline : ClassroomBaseline) :
    List String :=
  let factors : List String := []
  let movementDev :=
    features.movementIntensity.movementIntensityScore - baseline.averageMovementIntensity
  let factors := if movementDev > 1/5 then
    factors ++ [("Movement intensity " ++ String.mk (fmtF2 movementDev) ++
      " above classroom average")] else factors
  let factors := if features.movementIntensity.eventCount > 15 then
    factors ++ [("High movement event count: " ++
      String.mk (intChars features.movementIntensity.eventCount))] else factors
  let attentionDev :=
    baseline.averageAttentionRatio - features.attentionDuration.attentionRatio
  let factors := if attentionDev > 3/20 then
    factors ++ [("Attention ratio " ++ String.mk (fmtF2 attentionDev) ++
      " below classroom average")] else factors
  let factors := if features.attentionDuration.status = "below_threshold" then
    factors ++ [("Attention duration below threshold")] else factors
  let factors := if 2 ≤ factors.length then
    factors ++ [("Multiple behavioral indicators suggest potential concern")] else factors
  factors

/-- RiskScoringEngine.DetermineRiskCategory: case-sensitive substring search
of the factor strings for "Movement" and "Attention". -/
def determineRiskCategory (riskFactors : List String) : String :=
  let hasMovement := riskFactors.any (fun f => strContains f ("Movement"))
  let hasAttention := riskFactors.any (fun f => strContains f ("Attention"))
  if hasMovement && hasAttention then "Combined"
  else if hasMovement then "Movement"
  else if hasAttention then "Attention"
  else "Normal"

/-- RiskScoringEngine.GenerateRecommendation: fixed template per risk level. -/
def generateRecommendation (riskLevel : String) (_riskFactors : List String) : String :=
  if riskLevel = "HIGH" then
    "URGENT: Schedule immediate consultation with school psychologist. " ++
    "Consider additional behavioral assessments and parental involvement. " ++
    "Monitor closely for changes in behavior patterns."
  else if riskLevel = "MEDIUM" then
    "MONITOR: Schedule follow-up assessment within 2 weeks. " ++
    "Implement classroom interventions and track progress. " ++
    "Consider teacher observations and additional data collection."
  else if riskLevel = "LOW" then
    "MONITOR: Within normal behavioral range. " ++
    "Continue regular classroom observations. " ++
    "No immediate action required, but maintain ongoing monitoring."
  else
    "Continue standard behavioral monitoring protocols."

/-- RiskScoringEngine.AssessRisk; `now` stands for `DateTime.UtcNow`. -/
def assessRisk (features : BehavioralFeatures) (baseline : ClassroomBaseline)
    (now : ℤ) : RiskAssessment :=
  let riskScore := calculateRiskScore features.movementIntensity features.attentionDuration baseline
  let riskLevel := determineRiskLevel riskScore
  let riskFactors := identifyRiskFactors features baseline
  let recommendation := generateRecommendation riskLevel riskFactors
  { studentId := features.studentId
    riskLevel := riskLevel
    riskScore := riskScore
    riskCategory := determineRiskCategory riskFactors
    riskFactors := riskFactors
    recommendation := recommendation
    assessedAt := now
    sessionId := features.sessionId }

/-! ### BehavioralAnalyticsService

The store reads (Cosmos queries) are passed in as explicit lists; `now`
stands for `DateTime.UtcNow`. -/

/-- C# `string.Split(c)` over the underlying character list: splits at every
occurrence of the separator, keeping empty entries, and is never empty. -/
def splitChar (c : Char) : List Char → List (List Char)
  | [] => [[]]
  | a :: rest =>
    let r := splitChar c rest
    if a = c then [] :: r
    else match r with
      | [] => [[a]]
      | x :: xs => (a :: x) :: xs

/-- AnonymizedId derivation of GenerateStudentRiskCardsAsync:
`anonymous_` followed by `studentId.Split(underscore).Last()`. -/
def anonymizeStudentId (studentId : String) : String :=
  "anonymous_" ++ String.mk ((splitChar '_' studentId.data).getLastD [])

/-- BehavioralAnalyticsService.CalculateClassroomBaselineAsync with the store
read passed in as `features`: default baseline (0.5, 0.6, 0 students) on an
empty sample set, otherwise sample-level means and the distinct-student
count. -/
def calculateClassroomBaseline (classroomId : String) (timeWindow : String)
    (features : List BehavioralFeatures) (now : ℤ) : ClassroomBaseline :=
  if features.isEmpty then
    { classroomId := classroomId
      averageMovementIntensity := 1/2
      averageAttentionRatio := 3/5
      studentCount := 0
      calculatedAt := now
      timeWindow := timeWindow }
  else
    { classroomId := classroomId
      averageMovementIntensity :=
        (features.map (fun f => f.movementIntensity.movementIntensityScore)).sum /
          (features.length : ℚ)
      averageAttentionRatio :=
        (features.map (fun f => f.attentionDuration.attentionRatio)).sum /
          (features.length : ℚ)
      studentCount := (features.map (fun f => f.studentId)).dedup.length
      calculatedAt := now
      timeWindow := timeWindow }

/-- BehavioralAnalyticsService.CalculateRiskAssessmentAsync: the aggregator's
own internal scorer (+30 movement-deviation term, +40 attention-deviation
term, HIGH at 60 and MEDIUM at 30). -/
def calculateRiskAssessment (features : BehavioralFeatures)
    (baseline : ClassroomBaseline) (now : ℤ) : RiskAssessment :=
  let riskFactors : List String := []
  let riskScore : ℚ := 0
  let riskCategory := "Normal"
  let movementDeviation :=
    features.movementIntensity.movementIntensityScore - baseline.averageMovementIntensity
  let riskFactors := if movementDeviation > 3/10 then
    riskFactors ++ [("Elevated movement intensity compared to classroom average")]
    else riskFactors
  let riskScore := if movementDeviation > 3/10 then riskScore + 30 else riskScore
  let riskCategory := if movementDeviation > 3/10 then "Movement" else riskCategory
  let attentionDeviation :=
    baseline.averageAttentionRatio - features.attentionDuration.attentionRatio
  let riskFactors := if attentionDeviation > 1/5 then
    riskFactors ++ [("Below average attention duration")] else riskFactors
  let riskScore := if attentionDeviation > 1/5 then riskScore + 40 else riskScore
  let riskCategory := if attentionDeviation > 1/5 then
    (if riskCategory = "Movement" then "Combined" else "Attention") else riskCategory
  let riskLevel := if riskScore ≥ 60 then "HIGH"
    else if riskScore ≥ 30 then "MEDIUM" else "LOW"
  let recommendation :=
    if riskLevel = "HIGH" then
      "Immediate consultation with school psychologist recommended. " ++
      "Consider additional behavioral observations."
    else if riskLevel = "MEDIUM" then
      "Monitor closely and consider interventions. Schedule follow-up assessment."
    else if riskLevel = "LOW" then
      "Within normal range. Continue regular monitoring."
    else "Continue monitoring."
  { studentId := features.studentId
    riskLevel := riskLevel
    riskScore := min riskScore 100
    riskCategory := riskCategory
    riskFactors := riskFactors
    recommendation := recommendation
    assessedAt := now
    sessionId := features.sessionId }

/-- LINQ GroupBy on StudentId, fuel-structured so it reduces by evaluation:
keys appear in order of first occurrence, each group keeps source order.
Fuel equal to the list length always suffices. -/
def groupByStudentAux : ℕ → List BehavioralFeatures → List (String × List BehavioralFeatures)
  | _, [] => []
  | 0, _ :: _ => []
  | fuel+1, f :: rest =>
    (f.studentId, f :: rest.filter (fun g => g.studentId == f.studentId)) ::
      groupByStudentAux fuel (rest.filter (fun g => g.studentId != f.studentId))

/-- LINQ `features.GroupBy(f => f.StudentId)`. -/
def groupByStudent (l : List BehavioralFeatures) : List (String × List BehavioralFeatures) :=
  groupByStudentAux l.length l

/-- Insertion step of the descending-by-timestamp sort. -/
def insertByTsDesc (a : BehavioralFeatures) : List BehavioralFeatures → List BehavioralFeatures
  | [] => [a]
  | b :: l => if b.timestamp ≤ a.timestamp then a :: b :: l else b :: insertByTsDesc a l

/-- LINQ `OrderByDescending(f => f.Timestamp)` (stable descending sort). -/
def sortByTsDesc : List BehavioralFeatures → List BehavioralFeatures
  | [] => []
  | a :: l => insertByTsDesc a (sortByTsDesc l)

/-- BehavioralAnalyticsService.GenerateStudentRiskCardsAsync with the two
store reads passed in: the session's features and the features of the
classroom prefix of the sessionId (used for the baseline).  One card per
student group: latest sample scored by the internal scorer, latest 10
samples kept most-recent-first. -/
def generateStudentRiskCards (sessionId : String)
    (sessionFeatures classroomFeatures : List BehavioralFeatures) (now : ℤ) :
    List StudentRiskCard :=
  let classroomId := String.mk ((splitChar '-' sessionId.data).headD [])
  let baseline := calculateClassroomBaseline classroomId ("120s") classroomFeatures now
  (groupByStudent sessionFeatures).map (fun g =>
    let sorted := sortByTsDesc g.2
    let latestFeature := sorted.headD default
    { studentId := g.1
      anonymizedId := anonymizeStudentId g.1
      currentRisk := calculateRiskAssessment latestFeature baseline now
      recentFeatures := sorted.take 10
      classroomBaseline := baseline
      lastUpdated := now })

/-! ### Runtime-nullable view of AssessRisk inputs

The C# model declares the sub-objects non-nullable with default
initializers, but at runtime a caller (e.g. a deserializer) can still hand
AssessRisk a features object whose sub-object reference is null; member
access then raises NullReferenceException.  AssessRisk itself performs no
validation. -/

/-- Failure outcomes for scoring.  `nullReferenceException` is what C#
member access on a missing sub-object raises; `invalidFeatureData` is the
error named by the specification, which no code in the repository ever
produces. -/
inductive ScoringError where
  | nullReferenceException : ScoringError
  | invalidFeatureData : ScoringError
deriving Repr, DecidableEq

/-- A features record as it can exist at runtime: either sub-object
reference may be null. -/
structure BehavioralFeaturesRuntime where
  studentId : String
  movementIntensity : Option MovementIntensity
  attentionDuration : Option AttentionDuration
  timestamp : ℤ
  sessionId : String
deriving Repr, DecidableEq

/-- RiskScoringEngine.AssessRisk on a runtime features record: it reads both
sub-objects unconditionally (no validation), so a missing sub-object
surfaces as a NullReferenceException and well-formed input always
succeeds. -/
def assessRiskChecked (f : BehavioralFeaturesRuntime) (baseline : ClassroomBaseline)
    (now : ℤ) : Except ScoringError RiskAssessment :=
  match f.movementIntensity, f.attentionDuration with
  | some m, some a =>
    Except.ok (assessRisk
      { studentId := f.studentId, movementIntensity := m, attentionDuration := a,
        timestamp := f.timestamp, sessionId := f.sessionId } baseline now)
  | _, _ => Except.error ScoringError.nullReferenceException

/-! ### Concrete example inputs (used by witnesses and counterexamples) -/

/-- A neutral attention sample: ratio exactly at the default baseline. -/
def exAttentionNeutral : AttentionDuration :=
  { attentionRatio := 3/5, threshold := 3/5, status := "normal",
    longestFocusDuration := "0s", averageFocusDuration := "0s", timeWindow := "120s" }

/-- A movement sample 0.35 above the default baseline. -/
def exMovementHigh : MovementIntensity :=
  { movementIntensityScore := 17/20, threshold := 7/10, status := "normal",
    eventCount := 0, timeWindow := "120s" }

/-- A movement sample 0.20 above the default baseline. -/
def exMovementMid : MovementIntensity :=
  { movementIntensityScore := 7/10, threshold := 7/10, status := "normal",
    eventCount := 0, timeWindow := "120s" }

/-- A below-baseline movement sample (Scenario-B-like). -/
def exMovementLow : MovementIntensity :=
  { movementIntensityScore := 2/5, threshold := 7/10, status := "normal",
    eventCount := 3, timeWindow := "120s" }

/-- An above-baseline attention sample (Scenario-B-like). -/
def exAttentionGood : AttentionDuration :=
  { attentionRatio := 13/20, threshold := 3/5, status := "normal",
    longestFocusDuration := "0s", averageFocusDuration := "0s", timeWindow := "120s" }

/-- The default cold-start baseline for classroom c1. -/
def exBaseline : ClassroomBaseline :=
  { classroomId := "c1", averageMovementIntensity := 1/2, averageAttentionRatio := 3/5,
    studentCount := 0, calculatedAt := 0, timeWindow := "120s" }

/-- A single feature sample whose movement deviation (0.35) separates the two
scorers. -/
def exFeatureC1 : BehavioralFeatures :=
  { studentId := "student_1", movementIntensity := exMovementHigh,
    attentionDuration := exAttentionNeutral, timestamp := 0, sessionId := "c1-s1" }

/-- C# property initializers of StudentRiskCard. -/
instance : Inhabited StudentRiskCard :=
  ⟨{ studentId := "", anonymizedId := "", currentRisk := default,
     recentFeatures := [], classroomBaseline := default, lastUpdated := 0 }⟩

/-- The single card generated for the one-sample session c1-s1. -/
def exCardC1 : StudentRiskCard :=
  (generateStudentRiskCards ("c1-s1") [exFeatureC1] [] 0).headD default

/-- A feature sample whose only risk factor is the event count (17 > 15). -/
def exFeatureC7 : BehavioralFeatures :=
  { studentId := "s",
    movementIntensity :=
      { movementIntensityScore := 1/2, threshold := 7/10, status := "normal",
        eventCount := 17, timeWindow := "120s" },
    attentionDuration := exAttentionNeutral, timestamp := 0, sessionId := "c-s" }

/-- A runtime features record whose MovementIntensity reference is null. -/
def exMalformed : BehavioralFeaturesRuntime :=
  { studentId := "s1", movementIntensity := none,
    attentionDuration := some exAttentionNeutral, timestamp := 0, sessionId := "c1-s1" }

/-! ### Lemmas about the substring search and the rendered characters -/

theorem listContains_of_prefix {s pat : List Char} (h : pat <+: s) :
    listContains s pat = true := by
  cases s with
  | nil =>
    obtain ⟨u, hu⟩ := h
    have : pat = [] := by
      cases pat with
      | nil => rfl
      | cons c q => simp at hu
    subst this
    rfl
  | cons a t =>
    rw [listContains]
    rw [List.isPrefixOf_iff_prefix.mpr h |>.symm]
    simp [List.isPrefixOf_iff_prefix.mpr h]

theorem head_mem_of_listContains {s p : List Char} {c : Char}
    (h : listContains s (c :: p) = true) : c ∈ s := by
  induction s with
  | nil =>
    rw [listContains] at h
    simp [List.isPrefixOf] at h
  | cons a t ih =>
    rw [listContains] at h
    rcases Bool.or_eq_true_iff.mp h with h1 | h2
    · have hpre := List.isPrefixOf_iff_prefix.mp h1
      have : c = a := (List.cons_prefix_cons.mp hpre).1
      exact this ▸ List.mem_cons_self a t
    · exact List.mem_cons_of_mem a (ih h2)

theorem listContains_eq_false {s p : List Char} {c : Char} (hc : c ∉ s) :
    listContains s (c :: p) = false := by
  by_contra h
  exact hc (head_mem_of_listContains (Bool.of_not_eq_false h))

theorem mem_natDigitsAux {fuel n : ℕ} {c : Char} (h : c ∈ natDigitsAux fuel n) :
    ∃ d, d < 10 ∧ c = digitChar d := by
  induction fuel generalizing n with
  | zero => simp [natDigitsAux] at h
  | succ fuel ih =>
    rw [natDigitsAux] at h
    by_cases hm : n < 10
    · rw [if_pos hm] at h
      simp at h
      exact ⟨n, hm, h⟩
    · rw [if_neg hm] at h
      rcases List.mem_append.mp h with h1 | h2
      · exact ih h1
      · simp at h2
        exact ⟨n % 10, Nat.mod_lt _ (by norm_num), h2⟩

theorem mem_natDigits {n : ℕ} {c : Char} (h : c ∈ natDigits n) :
    ∃ d, d < 10 ∧ c = digitChar d := mem_natDigitsAux h

theorem digitChar_upper {d : ℕ} (hd : d < 10) :
    digitChar d ≠ 'M' ∧ digitChar d ≠ 'A' := by
  interval_cases d <;> exact ⟨by decide, by decide⟩

theorem intChars_upper {i : ℤ} {c : Char} (h : c ∈ intChars i) :
    c ≠ 'M' ∧ c ≠ 'A' := by
  rw [intChars] at h
  have base : ∀ x ∈ natDigits i.natAbs, x ≠ 'M' ∧ x ≠ 'A' := by
    intro x hx
    obtain ⟨d, hd, rfl⟩ := mem_natDigits hx
    exact digitChar_upper hd
  by_cases hi : i < 0
  · rw [if_pos hi] at h
    rcases List.mem_cons.mp h with rfl | h2
    · exact ⟨by decide, by decide⟩
    · exact base c h2
  · rw [if_neg hi] at h
    exact base c h

theorem fmtF2_upper {q : ℚ} {c : Char} (h : c ∈ fmtF2 q) :
    c ≠ 'M' ∧ c ≠ 'A' := by
  rw [fmtF2] at h
  set n : ℤ := round (q * 100) with hn
  have hbody : ∀ x, x ∈ natDigits (n.natAbs / 100) ++
      ('.' :: [digitChar (n.natAbs % 100 / 10), digitChar (n.natAbs % 100 % 10)]) →
      x ≠ 'M' ∧ x ≠ 'A' := by
    intro x hx
    rcases List.mem_append.mp hx with h1 | h2
    · obtain ⟨d, hd, rfl⟩ := mem_natDigits h1
      exact digitChar_upper hd
    · rcases List.mem_cons.mp h2 with rfl | h3
      · exact ⟨by decide, by decide⟩
      · rcases List.mem_cons.mp h3 with rfl | h4
        · exact digitChar_upper (Nat.div_lt_of_lt_mul (by omega))
        · rcases List.mem_cons.mp h4 with rfl | h5
          · exact digitChar_upper (Nat.mod_lt _ (by norm_num))
          · simp at h5
  by_cases hneg : n < 0
  · rw [if_pos hneg] at h
    rcases List.mem_cons.mp h with rfl | h2
    · exact ⟨by decide, by decide⟩
    · exact hbody c h2
  · rw [if_neg hneg] at h
    exact hbody c h

theorem data_append (a b : String) : (a ++ b).data = a.data ++ b.data := rfl

theorem data_mk (l : List Char) : (String.mk l).data = l := rfl

/-- The movement-deviation factor string contains "Movement". -/
theorem movFactor_contains_mov (d : ℚ) :
    strContains ("Movement intensity " ++ String.mk (fmtF2 d) ++
      " above classroom average") ("Movement") = true := by
  apply listContains_of_prefix
  rw [data_append, data_append, data_mk]
  have h1 : ("Movement").data <+: ("Movement intensity ").data := by decide
  exact (h1.trans (List.prefix_append _ _)).trans (List.prefix_append _ _)

/-- The movement-deviation factor string does not contain "Attention". -/
theorem movFactor_not_contains_att (d : ℚ) :
    strContains ("Movement intensity " ++ String.mk (fmtF2 d) ++
      " above classroom average") ("Attention") = false := by
  apply listContains_eq_false
  rw [data_append, data_append, data_mk]
  intro hmem
  rcases List.mem_append.mp hmem with h1 | h2
  · rcases List.mem_append.mp h1 with h3 | h4
    · simp at h3
    · exact (fmtF2_upper h4).2 rfl
  · simp at h2

/-- The event-count factor string spells movement in lower case, so the
case-sensitive search does not find "Movement" in it. -/
theorem evtFactor_not_contains_mov (i : ℤ) :
    strContains ("High movement event count: " ++ String.mk (intChars i))
      ("Movement") = false := by
  apply listContains_eq_false
  rw [data_append, data_mk]
  intro hmem
  rcases List.mem_append.mp hmem with h1 | h2
  · simp at h1
  · exact (intChars_upper h2).1 rfl

/-- The event-count factor string does not contain "Attention". -/
theorem evtFactor_not_contains_att (i : ℤ) :
    strContains ("High movement event count: " ++ String.mk (intChars i))
      ("Attention") = false := by
  apply listContains_eq_false
  rw [data_append, data_mk]
  intro hmem
  rcases List.mem_append.mp hmem with h1 | h2
  · simp at h1
  · exact (intChars_upper h2).2 rfl

/-- The attention-deviation factor string contains "Attention". -/
theorem attFactor_contains_att (d : ℚ) :
    strContains ("Attention ratio " ++ String.mk (fmtF2 d) ++
      " below classroom average") ("Attention") = true := by
  apply listContains_of_prefix
  rw [data_append, data_append, data_mk]
  have h1 : ("Attention").data <+: ("Attention ratio ").data := by decide
  exact (h1.trans (List.prefix_append _ _)).trans (List.prefix_append _ _)

/-- The attention-deviation factor string does not contain "Movement". -/
theorem attFactor_not_contains_mov (d : ℚ) :
    strContains ("Attention ratio " ++ String.mk (fmtF2 d) ++
      " below classroom average") ("Movement") = false := by
  apply listContains_eq_false
  rw [data_append, data_append, data_mk]
  intro hmem
  rcases List.mem_append.mp hmem with h1 | h2
  · rcases List.mem_append.mp h1 with h3 | h4
    · simp at h3
    · exact (fmtF2_upper h4).1 rfl
  · simp at h2

theorem statusFactor_contains_att :
    strContains ("Attention duration below threshold") ("Attention") = true := by decide

theorem statusFactor_not_contains_mov :
    strContains ("Attention duration below threshold") ("Movement") = false := by decide

theorem compositeFactor_not_contains_mov :
    strContains ("Multiple behavioral indicators suggest potential concern")
      ("Movement") = false := by decide

theorem compositeFactor_not_contains_att :
    strContains ("Multiple behavioral indicators suggest potential concern")
      ("Attention") = false := by decide

/-! ### Lemmas about the aggregator's grouping and sorting -/

theorem mem_insertByTsDesc {x a : BehavioralFeatures} {l : List BehavioralFeatures} :
    x ∈ insertByTsDesc a l ↔ x = a ∨ x ∈ l := by
  induction l with
  | nil => simp [insertByTsDesc]
  | cons b t ih =>
    rw [insertByTsDesc]
    by_cases h : b.timestamp ≤ a.timestamp
    · rw [if_pos h]
      simp
    · rw [if_neg h]
      simp [ih]
      tauto

theorem mem_sortByTsDesc {x : BehavioralFeatures} {l : List BehavioralFeatures} :
    x ∈ sortByTsDesc l ↔ x ∈ l := by
  induction l with
  | nil => simp [sortByTsDesc]
  | cons a t ih =>
    rw [sortByTsDesc]
    rw [mem_insertByTsDesc]
    simp [ih]

theorem sortByTsDesc_ne_nil {l : List BehavioralFeatures} (h : l ≠ []) :
    sortByTsDesc l ≠ [] := by
  cases l with
  | nil => exact absurd rfl h
  | cons a t =>
    rw [sortByTsDesc]
    cases hs : sortByTsDesc t with
    | nil => simp [insertByTsDesc]
    | cons b s =>
      rw [insertByTsDesc]
      by_cases hb : b.timestamp ≤ a.timestamp
      · rw [if_pos hb]; simp
      · rw [if_neg hb]; simp

theorem sortByTsDesc_headD_mem {l : List BehavioralFeatures} (h : l ≠ []) :
    (sortByTsDesc l).headD default ∈ l := by
  rw [← mem_sortByTsDesc]
  cases hs : sortByTsDesc l with
  | nil => exact absurd hs (sortByTsDesc_ne_nil h)
  | cons b s => simp

theorem sortByTsDesc_headD_max {l : List BehavioralFeatures} {x : BehavioralFeatures}
    (hx : x ∈ l) :
    x.timestamp ≤ ((sortByTsDesc l).headD default).timestamp := by
  induction l with
  | nil => simp at hx
  | cons a t ih =>
    rw [sortByTsDesc]
    cases hs : sortByTsDesc t with
    | nil =>
      have ht : t = [] := by
        cases t with
        | nil => rfl
        | cons b s => exact absurd hs (sortByTsDesc_ne_nil (by simp))
      subst ht
      simp at hx
      subst hx
      simp [insertByTsDesc]
    | cons b s =>
      rw [insertByTsDesc]
      by_cases hb : b.timestamp ≤ a.timestamp
      · rw [if_pos hb]
        rcases List.mem_cons.mp hx with rfl | hxt
        · simp
        · have := ih hxt
          rw [hs] at this
          simp at this ⊢
          exact le_trans this hb
      · rw [if_neg hb]
        rcases List.mem_cons.mp hx with rfl | hxt
        · simp
          exact le_of_not_le hb
        · have := ih hxt
          rw [hs] at this
          simpa using this

theorem groupByStudentAux_spec :
    ∀ (n : ℕ) (l : List BehavioralFeatures), l.length ≤ n →
    ∀ p ∈ groupByStudentAux n l,
      p.2 = l.filter (fun x => x.studentId == p.1) ∧ p.2 ≠ [] := by
  intro n
  induction n with
  | zero =>
    intro l hl p hp
    have : l = [] := List.length_eq_zero.mp (Nat.le_zero.mp hl)
    subst this
    simp [groupByStudentAux] at hp
  | succ n ih =>
    intro l hl p hp
    cases l with
    | nil => simp [groupByStudentAux] at hp
    | cons f rest =>
      rw [groupByStudentAux] at hp
      rcases List.mem_cons.mp hp with rfl | hmem
      · constructor
        · simp [List.filter]
        · simp
      · have hlen : (rest.filter (fun g => g.studentId != f.studentId)).length ≤ n := by
          have h1 := List.length_filter_le (fun g => g.studentId != f.studentId) rest
          have h2 : rest.length ≤ n := by simpa using hl
          omega
        obtain ⟨heq, hne⟩ := ih _ hlen p hmem
        have hkey : p.1 ≠ f.studentId := by
          intro hcontra
          obtain ⟨x, hx⟩ := List.exists_mem_of_ne_nil _ hne
          rw [heq] at hx
          have hx1 := List.of_mem_filter hx
          have hx2 := List.mem_of_mem_filter hx
          have hx3 := List.of_mem_filter hx2
          rw [beq_iff_eq] at hx1
          rw [bne_iff_ne] at hx3
          exact hx3 (hx1.trans hcontra)
        refine ⟨?_, hne⟩
        rw [heq]
        rw [List.filter_filter]
        rw [List.filter_cons_of_neg]
        · apply List.filter_congr
          intro x _
          by_cases hx : x.studentId = p.1
          · simp [hx, hkey]
          · simp [hx]
        · simp
          intro hcontra
          exact hkey hcontra.symm

theorem groupByStudent_spec {l : List BehavioralFeatures}
    {p : String × List BehavioralFeatures} (hp : p ∈ groupByStudent l) :
    p.2 = l.filter (fun x => x.studentId == p.1) ∧ p.2 ≠ [] :=
  groupByStudentAux_spec l.length l le_rfl p hp

/-- Every generated risk card scores, with the aggregator's own internal
scorer, a sample of that student that has maximal timestamp among the
student's samples in the session. -/
theorem mem_generateStudentRiskCards {sessionId : String}
    {sessionFeatures classroomFeatures : List BehavioralFeatures} {now : ℤ}
    {c : StudentRiskCard}
    (hc : c ∈ generateStudentRiskCards sessionId sessionFeatures classroomFeatures now) :
    ∃ f, f ∈ sessionFeatures ∧ f.studentId = c.studentId ∧
      (∀ g ∈ sessionFeatures, g.studentId = c.studentId → g.timestamp ≤ f.timestamp) ∧
      c.currentRisk = calculateRiskAssessment f
        (calculateClassroomBaseline (String.mk ((splitChar '-' sessionId.data).headD []))
          ("120s") classroomFeatures now) now := by
  rw [generateStudentRiskCards] at hc
  simp only [List.mem_map] at hc
  obtain ⟨p, hp, hcard⟩ := hc
  obtain ⟨heq, hne⟩ := groupByStudent_spec hp
  set hd := (sortByTsDesc p.2).headD default with hhd
  have hmem : hd ∈ p.2 := sortByTsDesc_headD_mem hne
  have hmemf : hd ∈ sessionFeatures.filter (fun x => x.studentId == p.1) := heq ▸ hmem
  have hid : hd.studentId = p.1 := by
    have := List.of_mem_filter hmemf
    rwa [beq_iff_eq] at this
  refine ⟨hd, List.mem_of_mem_filter hmemf, ?_, ?_, ?_⟩
  · rw [hid, ← hcard]
  · intro g hg hgid
    have hgmem : g ∈ p.2 := by
      rw [heq]
      apply List.mem_filter_of_mem hg
      rw [beq_iff_eq]
      rw [hgid, ← hcard]
    exact sortByTsDesc_headD_max hgmem
  · rw [← hcard]

/-! ### Characterization of the factor search of DetermineRiskCategory -/

/-- Some identified factor string contains "Movement" (case-sensitively) iff
the movement deviation exceeds 0.2: the event-count factor spells movement in
lower case and never matches. -/
theorem identifyRiskFactors_any_mov (f : BehavioralFeatures) (b : ClassroomBaseline) :
    (((identifyRiskFactors f b).any fun s => strContains s ("Movement")) = true) ↔
      f.movementIntensity.movementIntensityScore - b.averageMovementIntensity > 1/5 := by
  simp only [identifyRiskFactors]
  by_cases h1 : (5:ℚ)⁻¹ < f.movementIntensity.movementIntensityScore - b.averageMovementIntensity <;>
  by_cases h2 : f.movementIntensity.eventCount > 15 <;>
  by_cases h3 : b.averageAttentionRatio - f.attentionDuration.attentionRatio > 3/20 <;>
  by_cases h4 : f.attentionDuration.status = "below_threshold" <;>
  simp [h1, h2, h3, h4, movFactor_contains_mov, evtFactor_not_contains_mov,
    attFactor_not_contains_mov, statusFactor_not_contains_mov, compositeFactor_not_contains_mov]

/-- Some identified factor string contains "Attention" iff the attention
deviation exceeds 0.15 or the attention status is below_threshold. -/
theorem identifyRiskFactors_any_att (f : BehavioralFeatures) (b : ClassroomBaseline) :
    (((identifyRiskFactors f b).any fun s => strContains s ("Attention")) = true) ↔
      (b.averageAttentionRatio - f.attentionDuration.attentionRatio > 3/20 ∨
        f.attentionDuration.status = "below_threshold") := by
  simp only [identifyRiskFactors]
  by_cases h1 : (5:ℚ)⁻¹ < f.movementIntensity.movementIntensityScore - b.averageMovementIntensity <;>
  by_cases h2 : f.movementIntensity.eventCount > 15 <;>
  by_cases h3 : b.averageAttentionRatio - f.attentionDuration.attentionRatio > 3/20 <;>
  by_cases h4 : f.attentionDuration.status = "below_threshold" <;>
  simp [h1, h2, h3, h4, movFactor_not_contains_att, evtFactor_not_contains_att,
    attFactor_contains_att, statusFactor_contains_att, compositeFactor_not_contains_att]

/-- The one-sample session produces exactly one card, namely `exCardC1`. -/
theorem exCardC1_mem : exCardC1 ∈ generateStudentRiskCards ("c1-s1") [exFeatureC1] [] 0 := by
  have h : generateStudentRiskCards ("c1-s1") [exFeatureC1] [] 0 =
      [(generateStudentRiskCards ("c1-s1") [exFeatureC1] [] 0).headD default] := rfl
  rw [exCardC1]
  rw [h]
  exact List.mem_singleton.mpr rfl

/-! ### Claim theorems -/

/-- C1, counterexample: for the one-sample session c1-s1 (movement score
0.85 against the cold-start baseline 0.5), the generated card carries
riskScore 30 / level MEDIUM from the aggregator's internal scorer, while
RiskScoringEngine.AssessRisk on the same latest sample and the same
classroom baseline yields riskScore 35 / level LOW — so the card does not
carry the AssessRisk scoring output. -/
theorem C1_aggregator_differs_from_assessRisk :
    (generateStudentRiskCards ("c1-s1") [exFeatureC1] [] 0).map
        (fun c => (c.currentRisk.riskScore, c.currentRisk.riskLevel)) = [((30 : ℚ), "MEDIUM")] ∧
    (assessRisk exFeatureC1 (calculateClassroomBaseline ("c1") ("120s") [] 0) 0).riskScore = 35 ∧
    (assessRisk exFeatureC1 (calculateClassroomBaseline ("c1") ("120s") [] 0) 0).riskLevel = "LOW" ∧
    (30 : ℚ) ≠ 35 ∧ ("MEDIUM" : String) ≠ "LOW" := by
  refine ⟨?_, ?_, ?_, by norm_num, by decide⟩
  · simp [generateStudentRiskCards, groupByStudent, groupByStudentAux, sortByTsDesc,
      insertByTsDesc, calculateRiskAssessment, calculateClassroomBaseline, exFeatureC1,
      exMovementHigh, exAttentionNeutral]
    norm_num [min_def]
  · simp [assessRisk, calculateRiskScore, calculateClassroomBaseline, exFeatureC1,
      exMovementHigh, exAttentionNeutral]
    norm_num [min_def]
  · simp [assessRisk, determineRiskLevel, calculateRiskScore, calculateClassroomBaseline,
      exFeatureC1, exMovementHigh, exAttentionNeutral]
    norm_num [min_def]

/-- C1, amended: every generated StudentRiskCard scores the student's
most-recent-by-timestamp sample against the classroom baseline with the
aggregator's own internal scorer (CalculateRiskAssessmentAsync), not with
RiskScoringEngine.AssessRisk. -/
theorem C1_cards_scored_by_internal_scorer :
    ∀ (sessionId : String) (sessionFeatures classroomFeatures : List BehavioralFeatures)
      (now : ℤ),
    ∀ c ∈ generateStudentRiskCards sessionId sessionFeatures classroomFeatures now,
    ∃ f, f ∈ sessionFeatures ∧ f.studentId = c.studentId ∧
      (∀ g ∈ sessionFeatures, g.studentId = c.studentId → g.timestamp ≤ f.timestamp) ∧
      c.currentRisk = calculateRiskAssessment f
        (calculateClassroomBaseline (String.mk ((splitChar '-' sessionId.data).headD []))
          ("120s") classroomFeatures now) now :=
  fun _ _ _ _ _ hc => mem_generateStudentRiskCards hc

/-- C1, witness: the amended theorem applied to the concrete session
c1-s1 and its single generated card. -/
theorem C1_cards_scored_by_internal_scorer_witness :
    ∃ f, f ∈ [exFeatureC1] ∧ f.studentId = exCardC1.studentId ∧
      (∀ g ∈ [exFeatureC1], g.studentId = exCardC1.studentId → g.timestamp ≤ f.timestamp) ∧
      exCardC1.currentRisk = calculateRiskAssessment f
        (calculateClassroomBaseline (String.mk ((splitChar '-' ("c1-s1" : String).data).headD []))
          ("120s") [] 0) 0 :=
  C1_cards_scored_by_internal_scorer ("c1-s1") [exFeatureC1] [] 0 exCardC1 exCardC1_mem

/-- C2, counterexample: the anonymizedId derivation keeps only the substring
after the last underscore, so the two distinct studentIds student_1 and
teacher_1 collide on anonymous_1. -/
theorem C2_anonymizedId_collision :
    anonymizeStudentId ("student_1") = anonymizeStudentId ("teacher_1") ∧
      ("student_1" : String) ≠ "teacher_1" := ⟨rfl, by decide⟩

/-- C2, amended: within one aggregator run the derivation is a deterministic
function of studentId, but it is not injective: two studentIds receive the
same anonymizedId exactly when they share the substring after the last
underscore. -/
theorem C2_anonymizedId_function_and_collision_condition :
    ∀ a b : String,
      (a = b → anonymizeStudentId a = anonymizeStudentId b) ∧
      (anonymizeStudentId a = anonymizeStudentId b ↔
        (splitChar '_' a.data).getLastD [] = (splitChar '_' b.data).getLastD []) := by
  intro a b
  constructor
  · intro h; rw [h]
  · constructor
    · intro h
      rw [anonymizeStudentId, anonymizeStudentId] at h
      have hd := congrArg String.data h
      rw [data_append, data_append, data_mk, data_mk] at hd
      exact List.append_cancel_left hd
    · intro h
      rw [anonymizeStudentId, anonymizeStudentId, h]

/-- C2, witness: the function direction of the amended theorem applied at a
concrete id. -/
theorem C2_anonymizedId_function_and_collision_condition_witness :
    anonymizeStudentId ("x_1") = anonymizeStudentId ("x_1") :=
  (C2_anonymizedId_function_and_collision_condition ("x_1") ("x_1")).1 rfl

/-- C3: on an empty sample set the baseline calculation returns the default
baseline (movement 0.5, attention 0.6, studentCount 0); on a non-empty set
the averages are the sample-level means and studentCount is the number of
distinct studentIds. -/
theorem C3_baseline_default_and_means :
    ∀ (cid tw : String) (fs : List BehavioralFeatures) (now : ℤ),
      (fs = [] →
        calculateClassroomBaseline cid tw fs now =
          { classroomId := cid, averageMovementIntensity := 1/2, averageAttentionRatio := 3/5,
            studentCount := 0, calculatedAt := now, timeWindow := tw }) ∧
      (fs ≠ [] →
        (calculateClassroomBaseline cid tw fs now).averageMovementIntensity * (fs.length : ℚ) =
          (fs.map (fun f => f.movementIntensity.movementIntensityScore)).sum ∧
        (calculateClassroomBaseline cid tw fs now).averageAttentionRatio * (fs.length : ℚ) =
          (fs.map (fun f => f.attentionDuration.attentionRatio)).sum ∧
        (calculateClassroomBaseline cid tw fs now).studentCount =
          (fs.map (fun f => f.studentId)).toFinset.card) := by
  intro cid tw fs now
  constructor
  · intro h
    subst h
    rfl
  · intro h
    have hne : fs.isEmpty = false := by
      cases fs with
      | nil => exact absurd rfl h
      | cons a t => rfl
    have hlen : ((fs.length : ℚ)) ≠ 0 := by
      have : fs.length ≠ 0 := fun hc => h (List.length_eq_zero.mp hc)
      exact_mod_cast this
    refine ⟨?_, ?_, ?_⟩
    · simp only [calculateClassroomBaseline, hne, Bool.false_eq_true, if_false]
      exact div_mul_cancel₀ _ hlen
    · simp only [calculateClassroomBaseline, hne, Bool.false_eq_true, if_false]
      exact div_mul_cancel₀ _ hlen
    · simp only [calculateClassroomBaseline, hne, Bool.false_eq_true, if_false]
      exact (List.card_toFinset _).symm

/-- C3, witness: the theorem applied to the empty sample set and to a
singleton sample set. -/
theorem C3_baseline_default_and_means_witness :
    calculateClassroomBaseline ("c1") ("120s") [] 0 =
      { classroomId := "c1", averageMovementIntensity := 1/2, averageAttentionRatio := 3/5,
        studentCount := 0, calculatedAt := 0, timeWindow := "120s" } ∧
    ((calculateClassroomBaseline ("c1") ("120s") [exFeatureC1] 0).averageMovementIntensity *
        (([exFeatureC1] : List BehavioralFeatures).length : ℚ) =
      (([exFeatureC1] : List BehavioralFeatures).map
        (fun f => f.movementIntensity.movementIntensityScore)).sum ∧
    (calculateClassroomBaseline ("c1") ("120s") [exFeatureC1] 0).averageAttentionRatio *
        (([exFeatureC1] : List BehavioralFeatures).length : ℚ) =
      (([exFeatureC1] : List BehavioralFeatures).map
        (fun f => f.attentionDuration.attentionRatio)).sum ∧
    (calculateClassroomBaseline ("c1") ("120s") [exFeatureC1] 0).studentCount =
      (([exFeatureC1] : List BehavioralFeatures).map (fun f => f.studentId)).toFinset.card) :=
  ⟨(C3_baseline_default_and_means ("c1") ("120s") [] 0).1 rfl,
   (C3_baseline_default_and_means ("c1") ("120s") [exFeatureC1] 0).2 (by simp)⟩

/-- C4: the risk level is HIGH exactly on scores of at least 70, MEDIUM
exactly between 40 inclusive and 70 exclusive, LOW exactly below 40, with
the four boundary values behaving as claimed. -/
theorem C4_risk_level_thresholds :
    ∀ s : ℚ, (determineRiskLevel s = "HIGH" ↔ 70 ≤ s) ∧
      (determineRiskLevel s = "MEDIUM" ↔ 40 ≤ s ∧ s < 70) ∧
      (determineRiskLevel s = "LOW" ↔ s < 40) ∧
      determineRiskLevel 70 = "HIGH" ∧ determineRiskLevel (699/10) = "MEDIUM" ∧
      determineRiskLevel 40 = "MEDIUM" ∧ determineRiskLevel (399/10) = "LOW" := by
  intro s
  refine ⟨?_, ?_, ?_, by norm_num [determineRiskLevel], by norm_num [determineRiskLevel],
    by norm_num [determineRiskLevel], by norm_num [determineRiskLevel]⟩ <;>
  (by_cases h70 : (70:ℚ) ≤ s <;> by_cases h40 : (40:ℚ) ≤ s <;>
    simp [determineRiskLevel, h70, h40] <;> linarith)

/-- C5: the risk score is always within the 0..100 bounds, and without a
positive deviation, a high event count or a below_threshold status the
score is exactly 0. -/
theorem C5_risk_score_bounded :
    ∀ (m : MovementIntensity) (a : AttentionDuration) (b : ClassroomBaseline),
      0 ≤ calculateRiskScore m a b ∧ calculateRiskScore m a b ≤ 100 ∧
      (m.movementIntensityScore ≤ b.averageMovementIntensity →
        b.averageAttentionRatio ≤ a.attentionRatio →
        m.eventCount ≤ 20 → a.status ≠ "below_threshold" →
        calculateRiskScore m a b = 0) := by
  intro m a b
  refine ⟨?_, ?_, ?_⟩
  · simp only [calculateRiskScore]
    refine le_min ?_ (by norm_num)
    split_ifs <;>
      (repeat' apply add_nonneg) <;>
      first
        | exact le_min (by nlinarith) (by norm_num)
        | norm_num
        | linarith
  · simp only [calculateRiskScore]
    exact min_le_right _ _
  · intro hm ha he hs
    simp only [calculateRiskScore]
    split_ifs <;>
      first
        | exact absurd ‹a.status = "below_threshold"› hs
        | omega
        | linarith
        | norm_num

/-- C5, witness: the bounds at a Scenario-B-like input where the score
evaluates to 0. -/
theorem C5_risk_score_bounded_witness :
    0 ≤ calculateRiskScore exMovementLow exAttentionGood exBaseline ∧
    calculateRiskScore exMovementLow exAttentionGood exBaseline ≤ 100 ∧
    calculateRiskScore exMovementLow exAttentionGood exBaseline = 0 :=
  ⟨(C5_risk_score_bounded exMovementLow exAttentionGood exBaseline).1,
   (C5_risk_score_bounded exMovementLow exAttentionGood exBaseline).2.1,
   (C5_risk_score_bounded exMovementLow exAttentionGood exBaseline).2.2
     (by norm_num [exMovementLow, exBaseline])
     (by norm_num [exAttentionGood, exBaseline])
     (by norm_num [exMovementLow])
     (by simp [exAttentionGood])⟩

/-- C6: with the attention inputs and event count held fixed, increasing the
movement score while both scores stay above the baseline average never
decreases the risk score. -/
theorem C6_risk_score_monotone_in_movement :
    ∀ (b : ClassroomBaseline) (a1 a2 : AttentionDuration) (m1 m2 : MovementIntensity),
      a1.attentionRatio = a2.attentionRatio → a1.status = a2.status →
      m1.eventCount = m2.eventCount →
      m2.movementIntensityScore ≤ m1.movementIntensityScore →
      b.averageMovementIntensity < m2.movementIntensityScore →
      calculateRiskScore m2 a2 b ≤ calculateRiskScore m1 a1 b := by
  intro b a1 a2 m1 m2 hr hs he hm hb
  have hd2 : m2.movementIntensityScore - b.averageMovementIntensity > 0 := by linarith
  have hd1 : m1.movementIntensityScore - b.averageMovementIntensity > 0 := by linarith
  have hmin : min ((m2.movementIntensityScore - b.averageMovementIntensity) * 100) 50 ≤
      min ((m1.movementIntensityScore - b.averageMovementIntensity) * 100) 50 :=
    min_le_min (by linarith) le_rfl
  simp only [calculateRiskScore, if_pos hd1, if_pos hd2, hr, hs, he]
  by_cases hA : b.averageAttentionRatio - a2.attentionRatio > 0 <;>
  by_cases hE : m2.eventCount > 20 <;>
  by_cases hS : a2.status = "below_threshold" <;>
  simp only [hA, hE, hS, if_true, if_false, if_pos, if_neg, not_false_iff] <;>
  exact min_le_min (by linarith) le_rfl

/-- C6, witness: the theorem applied to movement scores 0.7 and 0.85 above
the default baseline 0.5, with identical attention inputs. -/
theorem C6_risk_score_monotone_in_movement_witness :
    calculateRiskScore exMovementMid exAttentionNeutral exBaseline ≤
      calculateRiskScore exMovementHigh exAttentionNeutral exBaseline :=
  C6_risk_score_monotone_in_movement exBaseline exAttentionNeutral exAttentionNeutral
    exMovementHigh exMovementMid rfl rfl rfl
    (by norm_num [exMovementHigh, exMovementMid])
    (by norm_num [exBaseline, exMovementMid])

/-- C7, counterexample: a sample whose only factor is the event count
(17 > 15, a movement-type factor per the claim) is categorized Normal, not
Movement: the factor string spells movement in lower case, and the
case-sensitive Contains search of DetermineRiskCategory never counts it. -/
theorem C7_eventCount_factor_not_movement_category :
    exFeatureC7.movementIntensity.eventCount > 15 ∧
    ¬(exFeatureC7.movementIntensity.movementIntensityScore -
        exBaseline.averageMovementIntensity > 1/5) ∧
    ¬(exBaseline.averageAttentionRatio -
        exFeatureC7.attentionDuration.attentionRatio > 3/20) ∧
    exFeatureC7.attentionDuration.status ≠ "below_threshold" ∧
    (assessRisk exFeatureC7 exBaseline 0).riskCategory = "Normal" ∧
    ("Normal" : String) ≠ "Movement" := by
  refine ⟨by norm_num [exFeatureC7], by norm_num [exFeatureC7, exBaseline],
    by norm_num [exFeatureC7, exBaseline, exAttentionNeutral],
    by simp [exFeatureC7, exAttentionNeutral], ?_, by decide⟩
  have h : identifyRiskFactors exFeatureC7 exBaseline =
      [("High movement event count: " ++ String.mk (intChars 17))] := by
    simp only [identifyRiskFactors, exFeatureC7, exBaseline, exAttentionNeutral]
    norm_num
    simp
  have h2 : intChars 17 = ['1', '7'] := by decide
  simp only [assessRisk, h, h2, determineRiskCategory]
  decide

/-- C7, amended: the risk category of an assessment is Combined exactly when
the movement deviation exceeds 0.2 and an attention-type factor (attention
deviation above 0.15 or status below_threshold) is present, Movement exactly
when only the movement deviation exceeds 0.2, Attention exactly when only
attention-type factors are present, and Normal otherwise; the
eventCount > 15 factor never counts as a movement-type factor because its
string spells movement in lower case and the Contains search is
case-sensitive. -/
theorem C7_risk_category_characterization :
    ∀ (f : BehavioralFeatures) (b : ClassroomBaseline) (now : ℤ),
      ((assessRisk f b now).riskCategory = "Combined" ↔
        (f.movementIntensity.movementIntensityScore - b.averageMovementIntensity > 1/5 ∧
          (b.averageAttentionRatio - f.attentionDuration.attentionRatio > 3/20 ∨
            f.attentionDuration.status = "below_threshold"))) ∧
      ((assessRisk f b now).riskCategory = "Movement" ↔
        (f.movementIntensity.movementIntensityScore - b.averageMovementIntensity > 1/5 ∧
          ¬(b.averageAttentionRatio - f.attentionDuration.attentionRatio > 3/20 ∨
            f.attentionDuration.status = "below_threshold"))) ∧
      ((assessRisk f b now).riskCategory = "Attention" ↔
        (¬(f.movementIntensity.movementIntensityScore - b.averageMovementIntensity > 1/5) ∧
          (b.averageAttentionRatio - f.attentionDuration.attentionRatio > 3/20 ∨
            f.attentionDuration.status = "below_threshold"))) ∧
      ((assessRisk f b now).riskCategory = "Normal" ↔
        (¬(f.movementIntensity.movementIntensityScore - b.averageMovementIntensity > 1/5) ∧
          ¬(b.averageAttentionRatio - f.attentionDuration.attentionRatio > 3/20 ∨
            f.attentionDuration.status = "below_threshold"))) := by
  intro f b now
  have hm := identifyRiskFactors_any_mov f b
  have ha := identifyRiskFactors_any_att f b
  by_cases P : f.movementIntensity.movementIntensityScore - b.averageMovementIntensity > 1/5 <;>
  by_cases Q : (b.averageAttentionRatio - f.attentionDuration.attentionRatio > 3/20 ∨
      f.attentionDuration.status = "below_threshold")
  · have hmb : ((identifyRiskFactors f b).any fun s => strContains s ("Movement")) = true :=
      hm.mpr P
    have hab : ((identifyRiskFactors f b).any fun s => strContains s ("Attention")) = true :=
      ha.mpr Q
    simp [assessRisk, determineRiskCategory, hmb, hab, P, Q] <;>
      first | (constructor <;> linarith) | linarith | tauto
  · have hmb : ((identifyRiskFactors f b).any fun s => strContains s ("Movement")) = true :=
      hm.mpr P
    have hab : ((identifyRiskFactors f b).any fun s => strContains s ("Attention")) = false :=
      Bool.eq_false_iff.mpr (fun h => Q (ha.mp h))
    simp [assessRisk, determineRiskCategory, hmb, hab, P, Q] <;>
      first | (constructor <;> linarith) | linarith | tauto
  · have hmb : ((identifyRiskFactors f b).any fun s => strContains s ("Movement")) = false :=
      Bool.eq_false_iff.mpr (fun h => P (hm.mp h))
    have hab : ((identifyRiskFactors f b).any fun s => strContains s ("Attention")) = true :=
      ha.mpr Q
    simp [assessRisk, determineRiskCategory, hmb, hab, P, Q] <;>
      first | (constructor <;> linarith) | linarith | tauto
  · have hmb : ((identifyRiskFactors f b).any fun s => strContains s ("Movement")) = false :=
      Bool.eq_false_iff.mpr (fun h => P (hm.mp h))
    have hab : ((identifyRiskFactors f b).any fun s => strContains s ("Attention")) = false :=
      Bool.eq_false_iff.mpr (fun h => Q (ha.mp h))
    simp [assessRisk, determineRiskCategory, hmb, hab, P, Q] <;>
      first | (constructor <;> linarith) | linarith | tauto

/-- C8: AssessRisk is deterministic in its observable scoring output: calls
that differ only in the ambient clock produce identical riskScore,
riskLevel, riskFactors and recommendation. -/
theorem C8_assessRisk_deterministic :
    ∀ (f : BehavioralFeatures) (b : ClassroomBaseline) (t1 t2 : ℤ),
      (assessRisk f b t1).riskScore = (assessRisk f b t2).riskScore ∧
      (assessRisk f b t1).riskLevel = (assessRisk f b t2).riskLevel ∧
      (assessRisk f b t1).riskFactors = (assessRisk f b t2).riskFactors ∧
      (assessRisk f b t1).recommendation = (assessRisk f b t2).recommendation :=
  fun _ _ _ _ => ⟨rfl, rfl, rfl, rfl⟩

/-- C9, counterexample: a runtime features record with a missing
MovementIntensity sub-object makes AssessRisk fail with the
null-reference runtime error, not with InvalidFeatureData (which nothing in
the code ever produces). -/
theorem C9_malformed_fails_with_null_reference :
    exMalformed.movementIntensity = none ∧
    assessRiskChecked exMalformed exBaseline 0 =
      Except.error ScoringError.nullReferenceException ∧
    ScoringError.nullReferenceException ≠ ScoringError.invalidFeatureData :=
  ⟨rfl, rfl, by decide⟩

/-- C9, amended: AssessRisk performs no validation; it succeeds exactly
when both sub-objects are present and never fails with InvalidFeatureData. -/
theorem C9_no_validation_never_invalidFeatureData :
    ∀ (f : BehavioralFeaturesRuntime) (b : ClassroomBaseline) (now : ℤ),
      ((∃ r, assessRiskChecked f b now = Except.ok r) ↔
        (f.movementIntensity.isSome = true ∧ f.attentionDuration.isSome = true)) ∧
      assessRiskChecked f b now ≠ Except.error ScoringError.invalidFeatureData := by
  intro f b now
  obtain ⟨sid, mi, ad, ts, sess⟩ := f
  cases mi <;> cases ad <;> simp [assessRiskChecked]

/-- C10: the aggregator's internal scorer only ever produces the scores 0,
30, 40 and 70; its level is HIGH exactly when both the movement deviation
exceeds 0.3 and the attention deviation exceeds 0.2, equivalently exactly
when the score is 70; consequently every generated card's CurrentRisk obeys
the same score set and HIGH-iff-70 equivalence. -/
theorem C10_internal_scorer_score_set_and_high :
    (∀ (f : BehavioralFeatures) (b : ClassroomBaseline) (now : ℤ),
      ((calculateRiskAssessment f b now).riskScore = 0 ∨
        (calculateRiskAssessment f b now).riskScore = 30 ∨
        (calculateRiskAssessment f b now).riskScore = 40 ∨
        (calculateRiskAssessment f b now).riskScore = 70) ∧
      ((calculateRiskAssessment f b now).riskLevel = "HIGH" ↔
        (f.movementIntensity.movementIntensityScore - b.averageMovementIntensity > 3/10 ∧
          b.averageAttentionRatio - f.attentionDuration.attentionRatio > 1/5)) ∧
      ((calculateRiskAssessment f b now).riskLevel = "HIGH" ↔
        (calculateRiskAssessment f b now).riskScore = 70)) ∧
    (∀ (now : ℤ) (sessionId : String) (sf cf : List BehavioralFeatures),
      ∀ c ∈ generateStudentRiskCards sessionId sf cf now,
        (c.currentRisk.riskScore = 0 ∨ c.currentRisk.riskScore = 30 ∨
          c.currentRisk.riskScore = 40 ∨ c.currentRisk.riskScore = 70) ∧
        (c.currentRisk.riskLevel = "HIGH" ↔ c.currentRisk.riskScore = 70)) := by
  have main : ∀ (f : BehavioralFeatures) (b : ClassroomBaseline) (now : ℤ),
      ((calculateRiskAssessment f b now).riskScore = 0 ∨
        (calculateRiskAssessment f b now).riskScore = 30 ∨
        (calculateRiskAssessment f b now).riskScore = 40 ∨
        (calculateRiskAssessment f b now).riskScore = 70) ∧
      ((calculateRiskAssessment f b now).riskLevel = "HIGH" ↔
        (f.movementIntensity.movementIntensityScore - b.averageMovementIntensity > 3/10 ∧
          b.averageAttentionRatio - f.attentionDuration.attentionRatio > 1/5)) ∧
      ((calculateRiskAssessment f b now).riskLevel = "HIGH" ↔
        (calculateRiskAssessment f b now).riskScore = 70) := by
    intro f b now
    by_cases hm : f.movementIntensity.movementIntensityScore - b.averageMovementIntensity > 3/10 <;>
    by_cases ha : b.averageAttentionRatio - f.attentionDuration.attentionRatio > 1/5
    · simp only [calculateRiskAssessment, if_pos hm, if_pos ha]
      norm_num [min_def]
      exact ⟨hm, ha⟩
    · simp only [calculateRiskAssessment, if_pos hm, if_neg ha]
      norm_num [min_def]
      exact ⟨⟨fun h => absurd h (by decide), fun h => absurd h.2 ha⟩, by decide⟩
    · simp only [calculateRiskAssessment, if_neg hm, if_pos ha]
      norm_num [min_def]
      exact ⟨⟨fun h => absurd h (by decide), fun h => absurd h.1 hm⟩, by decide⟩
    · simp only [calculateRiskAssessment, if_neg hm, if_neg ha]
      norm_num [min_def]
      exact ⟨⟨fun h => absurd h (by decide), fun h => absurd h.1 hm⟩, by decide⟩
  refine ⟨main, ?_⟩
  intro now sessionId sf cf c hc
  obtain ⟨f, -, -, -, heq⟩ := mem_generateStudentRiskCards hc
  rw [heq]
  exact ⟨(main f _ now).1, (main f _ now).2.2⟩

/-- C10, witness: the card-level part of the theorem applied to the concrete
session c1-s1 and its single generated card. -/
theorem C10_internal_scorer_score_set_and_high_witness :
    (exCardC1.currentRisk.riskScore = 0 ∨ exCardC1.currentRisk.riskScore = 30 ∨
      exCardC1.currentRisk.riskScore = 40 ∨ exCardC1.currentRisk.riskScore = 70) ∧
    (exCardC1.currentRisk.riskLevel = "HIGH" ↔ exCardC1.currentRisk.riskScore = 70) :=
  C10_internal_scorer_score_set_and_high.2 0 ("c1-s1") [exFeatureC1] [] exCardC1 exCardC1_mem

end NeuraLens
